import Mathlib

/-!
Shallow embedding of the auth-flow logic of a React Native (Expo + Clerk)
starter application, together with theorems settling a list of claims
about it.

The application delegates all identity operations to the Clerk SDK; the
code under verification is the client-side orchestration: delete guards
for contact methods, the multi-step `continue` auth flow, the
sign-in / sign-up / forgot-password submission handlers, zod form
schemas, and the mapping of Clerk API errors to form fields.

SDK calls are modelled by their observable outcomes (a status string on
success, a `ClerkError` on a thrown API error); handlers become pure
functions from those outcomes to the list of UI effects they perform.
-/

/- ## Data model: contact methods (Clerk user resources) -/

/-- An email address resource as rendered by the components:
`id`, `emailAddress`, and `verification?.status` (absent verification is
`none`). -/
structure EmailAddress where
  id : String
  emailAddress : String
  verificationStatus : Option String
  deriving DecidableEq, Repr

/-- A phone number resource: `id`, `phoneNumber`, `verification?.status`. -/
structure PhoneNumber where
  id : String
  phoneNumber : String
  verificationStatus : Option String
  deriving DecidableEq, Repr

/-- `email.verification?.status === 'verified'` -/
def EmailAddress.isVerified (e : EmailAddress) : Bool :=
  e.verificationStatus = some "verified"

/-- `phone.verification?.status === 'verified'` -/
def PhoneNumber.isVerified (p : PhoneNumber) : Bool :=
  p.verificationStatus = some "verified"

/-- The contact-method lists of the current user, as passed to the
`EmailManagement` / `PhoneManagement` components. -/
structure UserContacts where
  emailAddresses : List EmailAddress
  phoneNumbers : List PhoneNumber
  deriving DecidableEq, Repr

/- ## The three delete guards, translated from the components -/

/-- The guard of `handleDelete` in `EmailManagement`:
`hasOtherVerifiedEmails || hasVerifiedPhone`, where
`hasOtherVerifiedEmails = emailAddresses.some(e => e.id !== x.id && verified)`
and `hasVerifiedPhone = phoneNumbers && phoneNumbers.some(verified)`. -/
def emailDeleteGuard (u : UserContacts) (x : EmailAddress) : Bool :=
  let hasOtherVerifiedEmails :=
    u.emailAddresses.any fun e => e.id ≠ x.id && e.isVerified
  let hasVerifiedPhone :=
    u.phoneNumbers.any fun p => p.isVerified
  hasOtherVerifiedEmails || hasVerifiedPhone

/-- The guard of `handleDelete` in `PhoneManagement` (first variant):
`otherVerifiedPhones.length > 0 || verifiedEmails.length > 0`, where
`otherVerifiedPhones = phoneNumbers.filter(p => p.id !== x.id && verified)`
and `verifiedEmails = emailAddresses.filter(verified)`. -/
def phoneDeleteGuard (u : UserContacts) (x : PhoneNumber) : Bool :=
  let otherVerifiedPhones :=
    u.phoneNumbers.filter fun p => p.id ≠ x.id && p.isVerified
  let verifiedEmails :=
    u.emailAddresses.filter fun e => e.isVerified
  otherVerifiedPhones.length > 0 || verifiedEmails.length > 0

/-- The guard of `handleDeletePhone` in the second `PhoneManagement`
variant: `verifiedEmails.length > 0 || otherVerifiedPhones.length > 0`
on the same two filters. -/
def phoneDeleteGuard2 (u : UserContacts) (x : PhoneNumber) : Bool :=
  let verifiedEmails :=
    u.emailAddresses.filter fun e => e.isVerified
  let otherVerifiedPhones :=
    u.phoneNumbers.filter fun p => p.id ≠ x.id && p.isVerified
  verifiedEmails.length > 0 || otherVerifiedPhones.length > 0

/- ## Spec-side predicate for the refinement claim -/

/-- A contact method: a verified email address or phone number is a
verified contact method. This tagged union is the spec-side view. -/
inductive ContactMethod where
  | email (e : EmailAddress)
  | phone (p : PhoneNumber)
  deriving DecidableEq, Repr

/-- Verification status of a contact method. -/
def ContactMethod.isVerified : ContactMethod → Bool
  | .email e => e.isVerified
  | .phone p => p.isVerified

/-- Two contact methods denote the same underlying resource when they
are of the same kind and carry the same resource id. -/
def ContactMethod.sameItem : ContactMethod → ContactMethod → Bool
  | .email a, .email b => a.id = b.id
  | .phone a, .phone b => a.id = b.id
  | _, _ => false

/-- All contact methods of a user, emails then phones. -/
def UserContacts.methods (u : UserContacts) : List ContactMethod :=
  u.emailAddresses.map ContactMethod.email ++ u.phoneNumbers.map ContactMethod.phone

/-- Modelled from the spec: "the set of verified contact methods
(verified email addresses plus verified phone numbers) excluding x is
non-empty". -/
def specRetainsVerifiedContact (u : UserContacts) (x : ContactMethod) : Bool :=
  !(u.methods.filter fun m => !(m.sameItem x) && m.isVerified).isEmpty

/- ## Helper lemmas about the guards -/

theorem filter_length_pos_eq_any (l : List α) (p : α → Bool) :
    decide ((l.filter p).length > 0) = l.any p := by
  induction l with
  | nil => simp
  | cons a t ih =>
    by_cases h : p a = true <;> simp [List.filter_cons, List.any_cons, h, ih]

theorem not_isEmpty_filter_eq_any (l : List α) (p : α → Bool) :
    (!(l.filter p).isEmpty) = l.any p := by
  induction l with
  | nil => simp
  | cons a t ih =>
    by_cases h : p a = true <;> simp [List.filter_cons, List.any_cons, h, ih]

theorem any_map_comp (l : List α) (f : α → β) (q : β → Bool) :
    (l.map f).any q = l.any fun a => q (f a) := by
  induction l with
  | nil => rfl
  | cons a t ih => simp [List.any_cons, ih]

theorem methods_any (u : UserContacts) (q : ContactMethod → Bool) :
    u.methods.any q =
      ((u.emailAddresses.any fun e => q (.email e)) ||
        u.phoneNumbers.any fun p => q (.phone p)) := by
  simp [UserContacts.methods, List.any_append, any_map_comp]

theorem spec_email_eq (u : UserContacts) (x : EmailAddress) :
    specRetainsVerifiedContact u (.email x) =
      ((u.emailAddresses.any fun e => e.id ≠ x.id && e.isVerified) ||
        u.phoneNumbers.any fun p => p.isVerified) := by
  unfold specRetainsVerifiedContact
  rw [not_isEmpty_filter_eq_any, methods_any]
  simp [ContactMethod.sameItem, ContactMethod.isVerified]

theorem spec_phone_eq (u : UserContacts) (x : PhoneNumber) :
    specRetainsVerifiedContact u (.phone x) =
      ((u.emailAddresses.any fun e => e.isVerified) ||
        u.phoneNumbers.any fun p => p.id ≠ x.id && p.isVerified) := by
  unfold specRetainsVerifiedContact
  rw [not_isEmpty_filter_eq_any, methods_any]
  simp [ContactMethod.sameItem, ContactMethod.isVerified]

theorem emailDeleteGuard_eq_spec (u : UserContacts) (x : EmailAddress) :
    emailDeleteGuard u x = specRetainsVerifiedContact u (.email x) := by
  rw [spec_email_eq]; rfl

theorem phoneDeleteGuard_eq_spec (u : UserContacts) (x : PhoneNumber) :
    phoneDeleteGuard u x = specRetainsVerifiedContact u (.phone x) := by
  rw [spec_phone_eq]
  unfold phoneDeleteGuard
  rw [Bool.or_comm]
  simp [filter_length_pos_eq_any]

theorem phoneDeleteGuard2_eq_spec (u : UserContacts) (x : PhoneNumber) :
    phoneDeleteGuard2 u x = specRetainsVerifiedContact u (.phone x) := by
  rw [spec_phone_eq]
  unfold phoneDeleteGuard2
  simp [filter_length_pos_eq_any]

/- ## Delete handlers as effect traces -/

/-- Observable effects of a contact-method delete handler. -/
inductive DeleteEffect where
  | alert (title : String) (message : String)
  | confirmPrompt (title : String) (message : String)
  | destroy
  | deletedCallback
  deriving DecidableEq, Repr

/-- `handleDelete` of `EmailManagement`: guard, then confirmation dialog;
on Delete, `destroy()` if present, then `onEmailDeleted()` and a success
alert; `confirm` is whether the user presses Delete rather than Cancel,
`hasDestroy` whether the resource object has a `destroy` method. -/
def emailHandleDelete (u : UserContacts) (x : EmailAddress)
    (confirm hasDestroy : Bool) : List DeleteEffect :=
  if !emailDeleteGuard u x then
    [.alert "Cannot Delete"
      "You must have at least one verified email or phone number to maintain account access."]
  else
    .confirmPrompt "Delete Email Address"
        ("Are you sure you want to delete " ++ x.emailAddress ++ "?") ::
      (if confirm then
        if hasDestroy then
          [.destroy, .deletedCallback,
            .alert "Success" "Email address deleted successfully!"]
        else
          [.alert "Error" "Unable to delete email address"]
      else [])

/-- `handleDelete` of the first `PhoneManagement` variant: same shape as
the email handler, with the phone guard and phone wording. -/
def phoneHandleDelete (u : UserContacts) (x : PhoneNumber)
    (confirm hasDestroy : Bool) : List DeleteEffect :=
  if !phoneDeleteGuard u x then
    [.alert "Cannot Delete Phone"
      "You must have at least one verified phone number or email address."]
  else
    .confirmPrompt "Delete Phone Number"
        ("Are you sure you want to delete " ++ x.phoneNumber ++ "?") ::
      (if confirm then
        if hasDestroy then
          [.destroy, .deletedCallback,
            .alert "Success" "Phone number deleted successfully!"]
        else
          [.alert "Error" "Unable to delete phone number"]
      else [])

/-- `handleDeletePhone` of the second `PhoneManagement` variant:
early-returns unless the Clerk user and the phone are present, then
guard, confirmation, and on Delete a `destroy()` call whose thrown error
is caught and reported by an alert. -/
def handleDeletePhone (hasUser hasPhone : Bool) (u : UserContacts)
    (x : PhoneNumber) (confirm destroyThrows : Bool) : List DeleteEffect :=
  if !hasUser || !hasPhone then []
  else if !phoneDeleteGuard2 u x then
    [.alert "Cannot Delete Phone"
      "You must have at least one verified email address or phone number."]
  else
    .confirmPrompt "Delete Phone Number"
        ("Are you sure you want to delete " ++ x.phoneNumber ++ "?") ::
      (if confirm then
        .destroy ::
          (if destroyThrows then
            [.alert "Error" "Failed to delete phone number."]
          else
            [.alert "Success" "Phone number deleted successfully."])
      else [])

/- ## Clerk API errors -/

/-- One entry of a Clerk API error: `code`, `message`, `longMessage`,
and `meta.paramName`, each possibly absent. -/
structure ClerkErrorItem where
  code : Option String
  message : Option String
  longMessage : Option String
  paramName : Option String
  deriving DecidableEq, Repr

/-- A thrown Clerk API error; `errors` is `some list` exactly when the
thrown object has an `errors` field that is an array. -/
structure ClerkError where
  errors : Option (List ClerkErrorItem)
  deriving DecidableEq, Repr

/-- `str.toLowerCase().includes(sub)`: the lower-cased string splits
into more than one piece on `sub`. -/
def lowerIncludes (str sub : String) : Bool :=
  (str.toLower.splitOn sub).length > 1

/-- `m?.toLowerCase().includes(sub)` on an optional string. -/
def optLowerIncludes (m : Option String) (sub : String) : Bool :=
  match m with
  | some str => lowerIncludes str sub
  | none => false

/- ## continue.tsx: checkUserExists and the auth-step flow -/

/-- The `userNotFound` test inside `checkUserExists`: some entry of
`error.errors` has one of two codes or a message containing one of three
substrings. -/
def errorIndicatesUserNotFound (e : ClerkError) : Bool :=
  match e.errors with
  | some errs =>
      errs.any fun err =>
        err.code = some "form_identifier_not_found" ||
        err.code = some "form_identifier_exists" ||
        optLowerIncludes err.message "not found" ||
        optLowerIncludes err.message "no account" ||
        optLowerIncludes err.message "invalid"
  | none => false

/-- `checkUserExists(email)`: false when the sign-in SDK is not loaded;
true when `signIn.create({ identifier })` resolves; on a thrown error it
computes `userNotFound` and returns false on both branches. -/
def checkUserExists (signInLoaded : Bool)
    (createOutcome : Except ClerkError Unit) : Bool :=
  if !signInLoaded then false
  else
    match createOutcome with
    | .ok _ => true
    | .error e => if errorIndicatesUserNotFound e then false else false

/-- The `authStep` state of `ContinueWithAuth`. -/
inductive AuthStep where
  | email
  | signin
  | signup
  | verify
  deriving DecidableEq, Repr

/-- Result of an SDK attempt: a status string when it resolves, a
`ClerkError` when it throws. -/
abbrev AttemptOutcome := Except ClerkError String

/-- An event of the continue flow: a submit handler firing on the screen
that renders it, or the back button. Each submit event carries the SDK
outcomes the handler observes. -/
inductive AuthEvent where
  | emailContinue (signInLoaded userExists : Bool)
  | signInSubmit (signInLoaded : Bool) (outcome : AttemptOutcome)
      (setActiveThrows : Bool)
  | signUpSubmit (signUpLoaded : Bool) (outcome : AttemptOutcome)
      (prepareThrows setActiveThrows : Bool)
  | verifySubmit (signUpLoaded : Bool) (outcome : AttemptOutcome)
      (setActiveThrows : Bool)
  | back
  deriving Repr

/-- The `authStep` after an event fires at step `s`, translated from the
handlers of `ContinueWithAuth` (each submit handler is reachable only
from the screen of its own step; at any other step the event leaves the
step unchanged). `handleSignUp` sets the step to `verify` only when the
create attempt resolves with status `missing_requirements` and the
subsequent `prepareEmailAddressVerification` call does not throw. -/
def authStepTransition (s : AuthStep) (e : AuthEvent) : AuthStep :=
  match s, e with
  | .email, .emailContinue signInLoaded userExists =>
      if !signInLoaded then .email
      else if userExists then .signin
      else .signup
  | .signup, .signUpSubmit signUpLoaded outcome prepareThrows _ =>
      if !signUpLoaded then .signup
      else
        match outcome with
        | .ok st =>
            if st = "missing_requirements" then
              if prepareThrows then .signup else .verify
            else .signup
        | .error _ => .signup
  | .signin, .back => .email
  | .signup, .back => .email
  | .verify, .back => .signup
  | s, _ => s

/- ## Error-to-field mappers -/

/-- `mapClerkErrorToFormField` of `sign-in.tsx`: a switch on
`error.meta?.paramName`. -/
def mapClerkErrorToFormFieldSignIn (paramName : Option String) : String :=
  match paramName with
  | some "identifier" => "email"
  | some "email_address" => "email"
  | some "password" => "password"
  | _ => "root"

/-- `mapClerkErrorToFormField` of `sign-up.tsx`: a switch on
`error.meta?.paramName`. -/
def mapClerkErrorToFormFieldSignUp (paramName : Option String) : String :=
  match paramName with
  | some "first_name" => "firstName"
  | some "last_name" => "lastName"
  | some "email_address" => "email"
  | some "password" => "password"
  | _ => "root"

/-- The inline field mapping of `onResetPassword` in
`forgot-password.tsx`. -/
def resetPasswordErrorField (paramName : Option String) : String :=
  if paramName = some "code" then "code"
  else if paramName = some "password" then "password"
  else "root"

/-- The inline field mapping of `onSendResetEmail` in
`forgot-password.tsx`. -/
def sendResetEmailErrorField (paramName : Option String) : String :=
  if paramName = some "identifier" || paramName = some "email_address" then "email"
  else "root"

/- ## Submission handlers as runs -/

/-- An SDK method invocation performed by a handler. -/
inductive SdkCall where
  | signInCreate
  | signUpCreate
  | prepareEmailVerification
  | attemptEmailVerification
  | attemptFirstFactor
  | setActive (sessionId : Option String)
  deriving DecidableEq, Repr

/-- A UI effect performed by a handler. -/
inductive UiEffect where
  | setLoading (value : Bool)
  | setFieldError (field : String) (message : Option String)
  | alert (title message : String)
  | navigate (route : String)
  deriving DecidableEq, Repr

/-- The observable result of one handler invocation. -/
structure HandlerRun where
  calls : List SdkCall
  effects : List UiEffect
  thrown : Option ClerkError
  deriving Repr

/-- The resolved value of a sign-in / sign-up attempt: its `status` and
`createdSessionId`. -/
structure AttemptResult where
  status : String
  createdSessionId : Option String
  deriving DecidableEq, Repr

/-- The value of the `isLoading` flag after a handler run, starting from
`loading0`: the last `setLoading` effect wins. -/
def finalLoading (loading0 : Bool) (effects : List UiEffect) : Bool :=
  effects.foldl
    (fun acc ef =>
      match ef with
      | .setLoading v => v
      | _ => acc)
    loading0

/-- Effects of the `catch` branch shared by `sign-in.tsx` (`onSignIn`)
and `sign-up.tsx` (`onSignUp`): one `setError` per entry of
`err.errors` through the given field mapper with the entry's
`longMessage`, or a single root "Unknown error". -/
def clerkCatchEffects (mapper : Option String → String) (e : ClerkError) :
    List UiEffect :=
  match e.errors with
  | some errs =>
      errs.map fun err => .setFieldError (mapper err.paramName) err.longMessage
  | none => [.setFieldError "root" (some "Unknown error")]

/-- `onSignIn` of `sign-in.tsx`: `signIn.create`, then on status
`complete` a (non-awaited) `setActive` and navigation to the tabs
screen; on any other resolved status a root form error; on a thrown
error the per-entry field mapping. -/
def onSignIn (isLoaded : Bool)
    (outcome : Except ClerkError AttemptResult) : HandlerRun :=
  if !isLoaded then { calls := [], effects := [], thrown := none }
  else
    match outcome with
    | .ok r =>
        if r.status = "complete" then
          { calls := [.signInCreate, .setActive r.createdSessionId],
            effects := [.navigate "/(tabs)"],
            thrown := none }
        else
          { calls := [.signInCreate],
            effects := [.setFieldError "root" (some "Sign in could not be completed")],
            thrown := none }
    | .error e =>
        { calls := [.signInCreate],
          effects := clerkCatchEffects mapClerkErrorToFormFieldSignIn e,
          thrown := none }

/-- The `catch` branch of `handleSignIn` in `continue.tsx`: per entry,
`password` errors go to the password field, all others to root, with
`longMessage` falling back to a fixed message. -/
def continueSignInCatchEffects (e : ClerkError) : List UiEffect :=
  match e.errors with
  | some errs =>
      errs.map fun err =>
        if err.paramName = some "password" then
          .setFieldError "password" (some (err.longMessage.getD "Invalid password"))
        else
          .setFieldError "root" (some (err.longMessage.getD "Sign in failed"))
  | none => [.setFieldError "root" (some "Unknown error occurred")]

/-- `handleSignIn` of `continue.tsx`: guarded by `signInLoaded`, wraps
`signIn.create` and, on status `complete`, an awaited `setActive` and
navigation, in try/catch/finally with `isLoading` bookkeeping.
`setActiveErr` is the error thrown by `setActive`, if any. -/
def handleSignIn (signInLoaded : Bool)
    (outcome : Except ClerkError AttemptResult)
    (setActiveErr : Option ClerkError) : HandlerRun :=
  if !signInLoaded then { calls := [], effects := [], thrown := none }
  else
    match outcome with
    | .ok r =>
        if r.status = "complete" then
          match setActiveErr with
          | none =>
              { calls := [.signInCreate, .setActive r.createdSessionId],
                effects := [.setLoading true, .navigate "/(tabs)/home",
                  .setLoading false],
                thrown := none }
          | some e =>
              { calls := [.signInCreate, .setActive r.createdSessionId],
                effects := [.setLoading true] ++ continueSignInCatchEffects e ++
                  [.setLoading false],
                thrown := none }
        else
          { calls := [.signInCreate],
            effects := [.setLoading true,
              .setFieldError "root" (some "Sign in could not be completed"),
              .setLoading false],
            thrown := none }
    | .error e =>
        { calls := [.signInCreate],
          effects := [.setLoading true] ++ continueSignInCatchEffects e ++
            [.setLoading false],
          thrown := none }

/-- The `catch` branch of `handleSignUp` in `continue.tsx`: per entry,
the field is `err.meta?.paramName || 'root'` and the message
`err.longMessage || err.message`. -/
def continueSignUpCatchEffects (e : ClerkError) : List UiEffect :=
  match e.errors with
  | some errs =>
      errs.map fun err =>
        .setFieldError (err.paramName.getD "root") (err.longMessage <|> err.message)
  | none => [.setFieldError "root" (some "Unknown error occurred")]

/-- `handleSignUp` of `continue.tsx`: `signUp.create`, then on status
`missing_requirements` an awaited `prepareEmailAddressVerification`
(the step change itself is in `authStepTransition`), on status
`complete` an awaited `setActive` and navigation; try/catch/finally
with `isLoading` bookkeeping. -/
def handleSignUp (signUpLoaded : Bool)
    (outcome : Except ClerkError AttemptResult)
    (prepareErr setActiveErr : Option ClerkError) : HandlerRun :=
  if !signUpLoaded then { calls := [], effects := [], thrown := none }
  else
    match outcome with
    | .ok r =>
        if r.status = "missing_requirements" then
          match prepareErr with
          | none =>
              { calls := [.signUpCreate, .prepareEmailVerification],
                effects := [.setLoading true, .setLoading false],
                thrown := none }
          | some e =>
              { calls := [.signUpCreate, .prepareEmailVerification],
                effects := [.setLoading true] ++ continueSignUpCatchEffects e ++
                  [.setLoading false],
                thrown := none }
        else if r.status = "complete" then
          match setActiveErr with
          | none =>
              { calls := [.signUpCreate, .setActive r.createdSessionId],
                effects := [.setLoading true, .navigate "/(tabs)/home",
                  .setLoading false],
                thrown := none }
          | some e =>
              { calls := [.signUpCreate, .setActive r.createdSessionId],
                effects := [.setLoading true] ++ continueSignUpCatchEffects e ++
                  [.setLoading false],
                thrown := none }
        else
          { calls := [.signUpCreate],
            effects := [.setLoading true, .setLoading false],
            thrown := none }
    | .error e =>
        { calls := [.signUpCreate],
          effects := [.setLoading true] ++ continueSignUpCatchEffects e ++
            [.setLoading false],
          thrown := none }

/-- `handleVerification` of `continue.tsx`:
`signUp.attemptEmailAddressVerification`, then on status `complete` an
awaited `setActive` and navigation; any other resolved status sets a
code-field error; any thrown error sets a code-field error. -/
def handleVerification (signUpLoaded : Bool)
    (outcome : Except ClerkError AttemptResult)
    (setActiveErr : Option ClerkError) : HandlerRun :=
  if !signUpLoaded then { calls := [], effects := [], thrown := none }
  else
    match outcome with
    | .ok r =>
        if r.status = "complete" then
          match setActiveErr with
          | none =>
              { calls := [.attemptEmailVerification, .setActive r.createdSessionId],
                effects := [.setLoading true, .navigate "/(tabs)/home",
                  .setLoading false],
                thrown := none }
          | some _ =>
              { calls := [.attemptEmailVerification, .setActive r.createdSessionId],
                effects := [.setLoading true,
                  .setFieldError "code"
                    (some "Invalid verification code. Please try again."),
                  .setLoading false],
                thrown := none }
        else
          { calls := [.attemptEmailVerification],
            effects := [.setLoading true,
              .setFieldError "code" (some "Verification failed. Please try again."),
              .setLoading false],
            thrown := none }
    | .error _ =>
        { calls := [.attemptEmailVerification],
          effects := [.setLoading true,
            .setFieldError "code" (some "Invalid verification code. Please try again."),
            .setLoading false],
          thrown := none }

/-- `onSignUp` of `sign-up.tsx`: `signUp.create`, then (with no status
branch) `prepareEmailAddressVerification`, then navigation to the
verify screen; the catch maps each entry through
`mapClerkErrorToFormField` with `longMessage`. -/
def onSignUp (isLoaded : Bool)
    (createErr : Option ClerkError) (prepareErr : Option ClerkError) : HandlerRun :=
  if !isLoaded then { calls := [], effects := [], thrown := none }
  else
    match createErr with
    | some e =>
        { calls := [.signUpCreate],
          effects := clerkCatchEffects mapClerkErrorToFormFieldSignUp e,
          thrown := none }
    | none =>
        match prepareErr with
        | some e =>
            { calls := [.signUpCreate, .prepareEmailVerification],
              effects := clerkCatchEffects mapClerkErrorToFormFieldSignUp e,
              thrown := none }
        | none =>
            { calls := [.signUpCreate, .prepareEmailVerification],
              effects := [.navigate "/(auth)/verify"],
              thrown := none }

/- ## forgot-password.tsx -/

/-- The `step` state of `ForgotPasswordScreen`. -/
inductive ForgotStep where
  | email
  | reset
  deriving DecidableEq, Repr

/-- The observable result of a forgot-password handler invocation,
including the `step` after the run. -/
structure ForgotRun where
  calls : List SdkCall
  effects : List UiEffect
  step : ForgotStep
  thrown : Option ClerkError
  deriving Repr

/-- `onSendResetEmail`: `signIn.create` with the reset-password
strategy; the step advances to `reset` exactly on status
`needs_first_factor`; any other resolved status produces no effect
besides the `isLoading` bookkeeping; a thrown error is mapped onto the
email field or root. The handler starts at the `email` step, the only
step whose screen renders it. -/
def onSendResetEmail (isLoaded : Bool)
    (outcome : Except ClerkError String) : ForgotRun :=
  if !isLoaded then { calls := [], effects := [], step := .email, thrown := none }
  else
    match outcome with
    | .ok st =>
        { calls := [.signInCreate],
          effects := [.setLoading true, .setLoading false],
          step := if st = "needs_first_factor" then .reset else .email,
          thrown := none }
    | .error e =>
        { calls := [.signInCreate],
          effects := [.setLoading true] ++
            (match e.errors with
            | some errs =>
                errs.map fun err =>
                  .setFieldError (sendResetEmailErrorField err.paramName)
                    err.longMessage
            | none =>
                [.setFieldError "root"
                  (some "Failed to send reset email. Please try again.")]) ++
            [.setLoading false],
          step := .email,
          thrown := none }

/-- `onResetPassword`: `signIn.attemptFirstFactor` with the
reset-password strategy; on status `complete` a success alert whose
single OK button routes to the sign-in screen; any other resolved
status sets a root error; a thrown error is mapped onto code, password
or root. The handler starts at the `reset` step. -/
def onResetPassword (isLoaded : Bool)
    (outcome : Except ClerkError String) : ForgotRun :=
  if !isLoaded then { calls := [], effects := [], step := .reset, thrown := none }
  else
    match outcome with
    | .ok st =>
        if st = "complete" then
          { calls := [.attemptFirstFactor],
            effects := [.setLoading true,
              .alert "Password Reset Successful"
                "Your password has been successfully reset. You can now sign in with your new password.",
              .navigate "/(auth)/sign-in",
              .setLoading false],
            step := .reset,
            thrown := none }
        else
          { calls := [.attemptFirstFactor],
            effects := [.setLoading true,
              .setFieldError "root" (some "Password reset could not be completed"),
              .setLoading false],
            step := .reset,
            thrown := none }
    | .error e =>
        { calls := [.attemptFirstFactor],
          effects := [.setLoading true] ++
            (match e.errors with
            | some errs =>
                errs.map fun err =>
                  .setFieldError (resetPasswordErrorField err.paramName)
                    err.longMessage
            | none =>
                [.setFieldError "root"
                  (some "Password reset failed. Please try again.")]) ++
            [.setLoading false],
          step := .reset,
          thrown := none }

/- ## zod form schemas -/

/-- Fields of the sign-up form. -/
structure SignUpFields where
  firstName : String
  lastName : String
  email : String
  password : String
  deriving DecidableEq, Repr

/-- Fields of a sign-in form. -/
structure SignInFields where
  email : String
  password : String
  deriving DecidableEq, Repr

/-- Fields of the reset-password form of `forgot-password.tsx`. -/
structure ResetPasswordFields where
  code : String
  password : String
  confirmPassword : String
  deriving DecidableEq, Repr

/-- `signUpSchema` of `sign-up.tsx`: `firstName` and `lastName`
non-empty, `email` a valid email (zod's format check, abstracted as
`emailOk`), `password` at least 8 characters. -/
def signUpSchemaValid (emailOk : String → Bool) (f : SignUpFields) : Bool :=
  decide (f.firstName.length ≥ 1) && decide (f.lastName.length ≥ 1) &&
    emailOk f.email && decide (f.password.length ≥ 8)

/-- `signInSchema` (identical in `sign-in.tsx` and `continue.tsx`):
`email` a valid email, `password` at least 8 characters. -/
def signInSchemaValid (emailOk : String → Bool) (f : SignInFields) : Bool :=
  emailOk f.email && decide (f.password.length ≥ 8)

/-- `verificationSchema` of `continue.tsx`: `z.string().min(6).max(6)`
on the code. -/
def verificationSchemaValid (code : String) : Bool :=
  decide (code.length ≥ 6) && decide (code.length ≤ 6)

/-- `resetPasswordSchema` of `forgot-password.tsx`:
`code` of length exactly 6, `password` at least 8 characters,
`confirmPassword` a string, refined by `password === confirmPassword`. -/
def resetPasswordSchemaValid (f : ResetPasswordFields) : Bool :=
  decide (f.code.length = 6) && decide (f.password.length ≥ 8) &&
    decide (f.password = f.confirmPassword)

/-- react-hook-form `handleSubmit` with a `zodResolver`: the submission
handler runs exactly when the resolver validates the input. -/
def formSubmit {α β : Type} (validate : α → Bool) (onValid : α → β)
    (input : α) : Option β :=
  if validate input then some (onValid input) else none

/- ## Auxiliary predicates and concrete data -/

/-- The six step transitions of `ContinueWithAuth` listed by the
claim. -/
def continueAllowedTransitions : List (AuthStep × AuthStep) :=
  [(.email, .signin), (.email, .signup), (.signup, .verify),
   (.signin, .email), (.signup, .email), (.verify, .signup)]

/-- Whether an SDK call is a `setActive` session activation. -/
def SdkCall.isSetActive : SdkCall → Bool
  | .setActive _ => true
  | _ => false

/-- The SDK method a call invokes, forgetting its arguments. -/
def SdkCall.methodName : SdkCall → String
  | .signInCreate => "signIn.create"
  | .signUpCreate => "signUp.create"
  | .prepareEmailVerification => "signUp.prepareEmailAddressVerification"
  | .attemptEmailVerification => "signUp.attemptEmailAddressVerification"
  | .attemptFirstFactor => "signIn.attemptFirstFactor"
  | .setActive _ => "setActive"

/-- Whether a UI effect is a navigation. -/
def UiEffect.isNavigate : UiEffect → Bool
  | .navigate _ => true
  | _ => false

/-- Whether a UI effect sets a form-field error. -/
def UiEffect.isFieldError : UiEffect → Bool
  | .setFieldError _ _ => true
  | _ => false

/-- Whether a UI effect is one a failing handler is allowed: a
form-field error, an alert, or the `isLoading` bookkeeping. -/
def UiEffect.isErrorAlertOrLoading : UiEffect → Bool
  | .setFieldError _ _ => true
  | .alert _ _ => true
  | .setLoading _ => true
  | .navigate _ => false

/-- A Clerk API error entry with `meta.paramName` equal to
`identifier`. -/
def identifierErrorItem : ClerkErrorItem :=
  { code := some "form_param_unknown",
    message := some "is invalid",
    longMessage := some "identifier is invalid",
    paramName := some "identifier" }

/-- A thrown Clerk API error whose single entry is
`identifierErrorItem`. -/
def identifierError : ClerkError :=
  { errors := some [identifierErrorItem] }

/- ## Claim theorems -/

/-- C3: the separately implemented email-delete guard and phone-delete
guards compute the same predicate: for every user state and every item
x, each guard allows deletion exactly when the set of verified contact
methods (verified email addresses plus verified phone numbers)
excluding x is non-empty. -/
theorem deleteGuards_equal_specPredicate :
    ∀ u : UserContacts,
      (∀ x : EmailAddress,
        emailDeleteGuard u x = specRetainsVerifiedContact u (.email x)) ∧
      (∀ x : PhoneNumber,
        phoneDeleteGuard u x = specRetainsVerifiedContact u (.phone x) ∧
        phoneDeleteGuard2 u x = specRetainsVerifiedContact u (.phone x)) := by
  intro u
  exact ⟨fun x => emailDeleteGuard_eq_spec u x,
    fun x => ⟨phoneDeleteGuard_eq_spec u x, phoneDeleteGuard2_eq_spec u x⟩⟩

/-- C1: every contact-method delete handler issues the SDK `destroy`
call only when, excluding the item being deleted, at least one verified
email address or verified phone number remains; otherwise it shows a
Cannot-Delete alert and returns without any SDK mutation. -/
theorem deleteHandlers_destroyOnlyWithRemainingVerifiedContact :
    ∀ (u : UserContacts) (xe : EmailAddress) (xp : PhoneNumber)
      (confirm hasDestroy hasUser hasPhone destroyThrows : Bool),
      (DeleteEffect.destroy ∈ emailHandleDelete u xe confirm hasDestroy →
        specRetainsVerifiedContact u (.email xe) = true) ∧
      (specRetainsVerifiedContact u (.email xe) = false →
        emailHandleDelete u xe confirm hasDestroy =
          [.alert "Cannot Delete"
            "You must have at least one verified email or phone number to maintain account access."]) ∧
      (DeleteEffect.destroy ∈ phoneHandleDelete u xp confirm hasDestroy →
        specRetainsVerifiedContact u (.phone xp) = true) ∧
      (specRetainsVerifiedContact u (.phone xp) = false →
        phoneHandleDelete u xp confirm hasDestroy =
          [.alert "Cannot Delete Phone"
            "You must have at least one verified phone number or email address."]) ∧
      (DeleteEffect.destroy ∈
          handleDeletePhone hasUser hasPhone u xp confirm destroyThrows →
        specRetainsVerifiedContact u (.phone xp) = true) ∧
      (hasUser = true → hasPhone = true →
        specRetainsVerifiedContact u (.phone xp) = false →
        handleDeletePhone hasUser hasPhone u xp confirm destroyThrows =
          [.alert "Cannot Delete Phone"
            "You must have at least one verified email address or phone number."]) := by
  intro u xe xp confirm hasDestroy hasUser hasPhone destroyThrows
  refine ⟨?_, ?_, ?_, ?_, ?_, ?_⟩
  · intro h
    rw [← emailDeleteGuard_eq_spec]
    by_contra hg
    rw [Bool.not_eq_true] at hg
    simp [emailHandleDelete, hg] at h
  · intro hspec
    rw [← emailDeleteGuard_eq_spec] at hspec
    simp [emailHandleDelete, hspec]
  · intro h
    rw [← phoneDeleteGuard_eq_spec]
    by_contra hg
    rw [Bool.not_eq_true] at hg
    simp [phoneHandleDelete, hg] at h
  · intro hspec
    rw [← phoneDeleteGuard_eq_spec] at hspec
    simp [phoneHandleDelete, hspec]
  · intro h
    rw [← phoneDeleteGuard2_eq_spec]
    by_contra hg
    rw [Bool.not_eq_true] at hg
    cases hasUser <;> cases hasPhone <;>
      simp [handleDeletePhone, hg] at h
  · intro hu hp hspec
    rw [← phoneDeleteGuard2_eq_spec] at hspec
    subst hu; subst hp
    simp [handleDeletePhone, hspec]

/-- C2: the `authStep` state of `ContinueWithAuth` ranges over email,
signin, signup and verify and changes only along: email to signin (when
the entered email identifies an existing user), email to signup
(otherwise), signup to verify (only when the sign-up attempt resolves
with status missing_requirements), and the back transitions signin to
email, signup to email, verify to signup; the verify step is reachable
only through the signup step. -/
theorem continueAuthStep_transitions :
    (∀ s : AuthStep, s = .email ∨ s = .signin ∨ s = .signup ∨ s = .verify) ∧
    (∀ (s : AuthStep) (e : AuthEvent),
      authStepTransition s e = s ∨
        (s, authStepTransition s e) ∈ continueAllowedTransitions) ∧
    (∀ (s : AuthStep) (e : AuthEvent),
      authStepTransition s e = .verify → s = .signup ∨ s = .verify) ∧
    (∀ l ex : Bool, authStepTransition .email (.emailContinue l ex) =
      if l = true then (if ex = true then .signin else .signup) else .email) ∧
    (∀ (l : Bool) (oc : AttemptOutcome) (pt sa : Bool),
      authStepTransition .signup (.signUpSubmit l oc pt sa) = .verify →
        oc = .ok "missing_requirements") ∧
    (authStepTransition .signin .back = .email ∧
      authStepTransition .signup .back = .email ∧
      authStepTransition .verify .back = .signup) := by
  refine ⟨?_, ?_, ?_, ?_, ?_, rfl, rfl, rfl⟩
  · intro s; cases s <;> simp
  · intro s e
    cases s <;> cases e <;> try (left; rfl)
    case email.emailContinue l ex =>
      cases l with
      | false => left; rfl
      | true =>
        cases ex <;> right <;>
          simp [authStepTransition, continueAllowedTransitions]
    case signup.signUpSubmit l oc pt sa =>
      cases l with
      | false => left; rfl
      | true =>
        cases oc with
        | error e => left; rfl
        | ok st =>
          by_cases hst : st = "missing_requirements"
          · cases pt with
            | true => left; simp [authStepTransition, hst]
            | false =>
              right
              simp [authStepTransition, hst, continueAllowedTransitions]
          · left; simp [authStepTransition, hst]
    case signin.back => right; simp [authStepTransition, continueAllowedTransitions]
    case signup.back => right; simp [authStepTransition, continueAllowedTransitions]
    case verify.back => right; simp [authStepTransition, continueAllowedTransitions]
  · intro s e h
    cases s <;> cases e <;> try (simp [authStepTransition] at h)
    case email.emailContinue l ex =>
      cases l <;> cases ex <;> simp [authStepTransition] at h
    case signup.signUpSubmit l oc pt sa => left; rfl
    case verify.emailContinue l ex => right; rfl
    case verify.signInSubmit l oc sa => right; rfl
    case verify.signUpSubmit l oc pt sa => right; rfl
    case verify.verifySubmit l oc sa => right; rfl
  · intro l ex
    cases l <;> cases ex <;> simp [authStepTransition]
  · intro l oc pt sa h
    cases l with
    | false => simp [authStepTransition] at h
    | true =>
      cases oc with
      | error e => simp [authStepTransition] at h
      | ok st =>
        by_cases hst : st = "missing_requirements"
        · rw [hst]
        · simp [authStepTransition, hst] at h

/-- C4 counterexample: the sign-up submission handler maps a Clerk API
error whose `meta.paramName` is `identifier` to the root form error,
not to the email field, contradicting the claim that `identifier` maps
to the email field in every sign-in or sign-up submission handler. -/
theorem signUpHandler_identifierError_mapsToRoot :
    mapClerkErrorToFormFieldSignUp (some "identifier") = "root" ∧
    mapClerkErrorToFormFieldSignUp (some "identifier") ≠ "email" ∧
    (onSignUp true (some identifierError) none).effects =
      [.setFieldError "root" (some "identifier is invalid")] := by
  refine ⟨rfl, by decide, rfl⟩

/-- C4 amended: each handler maps caught Clerk API errors to form
fields by `meta.paramName` through its own table, with the displayed
message being the error entry's `longMessage`: the sign-in handler
sends `identifier` and `email_address` to email, `password` to
password, and anything else to root; the sign-up handler sends
`first_name`, `last_name`, `email_address` and `password` to the
corresponding fields and anything else (including `identifier`) to
root; the reset-password handler sends `code` and `password` to the
corresponding fields and anything else to root. -/
theorem clerkErrorFieldMappings :
    ∀ (p : Option String) (e : ClerkError) (errs : List ClerkErrorItem),
      (mapClerkErrorToFormFieldSignIn (some "identifier") = "email" ∧
        mapClerkErrorToFormFieldSignIn (some "email_address") = "email" ∧
        mapClerkErrorToFormFieldSignIn (some "password") = "password") ∧
      (p ≠ some "identifier" → p ≠ some "email_address" →
        p ≠ some "password" → mapClerkErrorToFormFieldSignIn p = "root") ∧
      (mapClerkErrorToFormFieldSignUp (some "first_name") = "firstName" ∧
        mapClerkErrorToFormFieldSignUp (some "last_name") = "lastName" ∧
        mapClerkErrorToFormFieldSignUp (some "email_address") = "email" ∧
        mapClerkErrorToFormFieldSignUp (some "password") = "password") ∧
      (p ≠ some "first_name" → p ≠ some "last_name" →
        p ≠ some "email_address" → p ≠ some "password" →
        mapClerkErrorToFormFieldSignUp p = "root") ∧
      (resetPasswordErrorField (some "code") = "code" ∧
        resetPasswordErrorField (some "password") = "password") ∧
      (p ≠ some "code" → p ≠ some "password" →
        resetPasswordErrorField p = "root") ∧
      (e.errors = some errs →
        (onSignIn true (.error e)).effects =
          errs.map fun err =>
            .setFieldError (mapClerkErrorToFormFieldSignIn err.paramName)
              err.longMessage) ∧
      (e.errors = some errs →
        (onSignUp true (some e) none).effects =
          errs.map fun err =>
            .setFieldError (mapClerkErrorToFormFieldSignUp err.paramName)
              err.longMessage) ∧
      (e.errors = some errs →
        (onResetPassword true (.error e)).effects =
          [.setLoading true] ++
            (errs.map fun err =>
              .setFieldError (resetPasswordErrorField err.paramName)
                err.longMessage) ++ [.setLoading false]) := by
  intro p e errs
  refine ⟨⟨rfl, rfl, rfl⟩, ?_, ⟨rfl, rfl, rfl, rfl⟩, ?_, ⟨rfl, rfl⟩, ?_,
    ?_, ?_, ?_⟩
  · intro h1 h2 h3
    unfold mapClerkErrorToFormFieldSignIn
    split
    · exact absurd rfl h1
    · exact absurd rfl h2
    · exact absurd rfl h3
    · rfl
  · intro h1 h2 h3 h4
    unfold mapClerkErrorToFormFieldSignUp
    split
    · exact absurd rfl h1
    · exact absurd rfl h2
    · exact absurd rfl h3
    · exact absurd rfl h4
    · rfl
  · intro h1 h2
    unfold resetPasswordErrorField
    rw [if_neg h1, if_neg h2]
  · intro h
    simp [onSignIn, clerkCatchEffects, h]
  · intro h
    simp [onSignUp, clerkCatchEffects, h]
  · intro h
    simp [onResetPassword, h]

/-- C9: `checkUserExists` returns true exactly when the sign-in SDK is
loaded and `signIn.create` resolves; it returns false for every thrown
error regardless of its code, and whenever the SDK is not loaded; in
`handleEmailContinue` a thrown error therefore routes the email to the
sign-up step. -/
theorem checkUserExists_trueIffCreateResolves :
    (∀ (loaded : Bool) (oc : Except ClerkError Unit),
      checkUserExists loaded oc = true ↔ (loaded = true ∧ oc = .ok ())) ∧
    (∀ e : ClerkError, checkUserExists true (.error e) = false) ∧
    (∀ oc : Except ClerkError Unit, checkUserExists false oc = false) ∧
    (∀ e : ClerkError,
      authStepTransition .email
        (.emailContinue true (checkUserExists true (.error e))) = .signup) := by
  have hfalse : ∀ e : ClerkError, checkUserExists true (.error e) = false := by
    intro e
    simp [checkUserExists]
  refine ⟨?_, hfalse, ?_, ?_⟩
  · intro loaded oc
    cases loaded with
    | false => simp [checkUserExists]
    | true =>
      cases oc with
      | ok u => cases u; simp [checkUserExists]
      | error e => simp [hfalse e]
  · intro oc; simp [checkUserExists]
  · intro e
    rw [hfalse e]
    rfl

/-- C10: a form submission handler runs only when the input satisfies
the form's zod schema; in particular a verification code is submitted
only when it is exactly 6 characters long and a password only when it
is at least 8 characters long, on the sign-in, sign-up, verification
and password-reset forms alike. -/
theorem formSchemas_gateSubmission :
    ∀ (β : Type) (emailOk : String → Bool)
      (hv : String → β) (hr : ResetPasswordFields → β)
      (hs : SignUpFields → β) (hi : SignInFields → β)
      (g : String → Bool) (code x : String)
      (fr : ResetPasswordFields) (fs : SignUpFields) (fi : SignInFields),
      ((formSubmit verificationSchemaValid hv code).isSome →
        code.length = 6) ∧
      ((formSubmit resetPasswordSchemaValid hr fr).isSome →
        fr.code.length = 6 ∧ fr.password.length ≥ 8) ∧
      ((formSubmit (signUpSchemaValid emailOk) hs fs).isSome →
        fs.password.length ≥ 8) ∧
      ((formSubmit (signInSchemaValid emailOk) hi fi).isSome →
        fi.password.length ≥ 8) ∧
      ((formSubmit g hv x).isSome → g x = true) := by
  intro β emailOk hv hr hs hi g code x fr fs fi
  have run : ∀ (γ : Type) (val : γ → Bool) (h : γ → β) (a : γ),
      (formSubmit val h a).isSome → val a = true := by
    intro γ val h a hs
    unfold formSubmit at hs
    by_cases hva : val a = true
    · exact hva
    · rw [if_neg hva] at hs
      simp at hs
  refine ⟨?_, ?_, ?_, ?_, run String g hv x⟩
  · intro h
    have hc := run String verificationSchemaValid hv code h
    unfold verificationSchemaValid at hc
    simp at hc
    omega
  · intro h
    have hc := run ResetPasswordFields resetPasswordSchemaValid hr fr h
    unfold resetPasswordSchemaValid at hc
    simp at hc
    exact ⟨hc.1.1, hc.1.2⟩
  · intro h
    have hc := run SignUpFields (signUpSchemaValid emailOk) hs fs h
    unfold signUpSchemaValid at hc
    simp at hc
    exact hc.2
  · intro h
    have hc := run SignInFields (signInSchemaValid emailOk) hi fi h
    unfold signInSchemaValid at hc
    simp at hc
    exact hc.2

/-- C5: a password sign-in submission activates the created session and
navigates away from the auth screens exactly when the SDK sign-in
attempt resolves with status complete; for any other resolved status it
sets the root form error and performs no session activation and no
navigation. This holds for `onSignIn` of `sign-in.tsx` and for
`handleSignIn` of `continue.tsx` (on runs where `setActive` does not
throw). -/
theorem passwordSignIn_completeIffActivateAndNavigate :
    ∀ r : AttemptResult,
      (((onSignIn true (.ok r)).calls.any SdkCall.isSetActive = true ∧
          (onSignIn true (.ok r)).effects.any UiEffect.isNavigate = true) ↔
        r.status = "complete") ∧
      (r.status = "complete" →
        (onSignIn true (.ok r)).calls =
          [.signInCreate, .setActive r.createdSessionId] ∧
        (onSignIn true (.ok r)).effects = [.navigate "/(tabs)"]) ∧
      (r.status ≠ "complete" →
        (onSignIn true (.ok r)).effects =
          [.setFieldError "root" (some "Sign in could not be completed")] ∧
        (onSignIn true (.ok r)).calls = [.signInCreate]) ∧
      (((handleSignIn true (.ok r) none).calls.any SdkCall.isSetActive = true ∧
          (handleSignIn true (.ok r) none).effects.any UiEffect.isNavigate = true) ↔
        r.status = "complete") ∧
      (r.status = "complete" →
        (handleSignIn true (.ok r) none).calls =
          [.signInCreate, .setActive r.createdSessionId]) ∧
      (r.status ≠ "complete" →
        (handleSignIn true (.ok r) none).effects =
          [.setLoading true,
            .setFieldError "root" (some "Sign in could not be completed"),
            .setLoading false] ∧
        (handleSignIn true (.ok r) none).calls = [.signInCreate]) := by
  intro r
  by_cases hst : r.status = "complete" <;>
    simp [onSignIn, handleSignIn, hst, SdkCall.isSetActive, UiEffect.isNavigate]

/-- C6 counterexample: when the sign-up create attempt resolves with
status missing_requirements, `handleSignUp` of `continue.tsx` performs
two SDK calls in a single invocation (the create call, then the
verification preparation call), not exactly one. -/
theorem handleSignUp_performsTwoSdkCalls :
    (handleSignUp true
        (.ok { status := "missing_requirements", createdSessionId := none })
        none none).calls =
      [.signUpCreate, .prepareEmailVerification] ∧
    (handleSignUp true
        (.ok { status := "missing_requirements", createdSessionId := none })
        none none).calls.length ≠ 1 := by
  exact ⟨rfl, by decide⟩

/-- C6 amended: every cited submission handler performs its primary SDK
call first and at most one follow-up SDK call per invocation (the
verification preparation or the session activation), so between one and
two SDK calls in total; the password-reset submission performs exactly
its one SDK call. -/
theorem submissionHandlers_atMostTwoSdkCalls :
    ∀ (oc : Except ClerkError AttemptResult) (pe sa ce pe2 : Option ClerkError)
      (oc2 : Except ClerkError String),
      ((handleSignUp true oc pe sa).calls.head? = some .signUpCreate ∧
        1 ≤ (handleSignUp true oc pe sa).calls.length ∧
        (handleSignUp true oc pe sa).calls.length ≤ 2) ∧
      ((onSignUp true ce pe2).calls.head? = some .signUpCreate ∧
        1 ≤ (onSignUp true ce pe2).calls.length ∧
        (onSignUp true ce pe2).calls.length ≤ 2) ∧
      (onResetPassword true oc2).calls = [.attemptFirstFactor] := by
  intro oc pe sa ce pe2 oc2
  refine ⟨?_, ?_, ?_⟩
  · cases oc with
    | ok r =>
      by_cases h1 : r.status = "missing_requirements"
      · cases pe <;> simp [handleSignUp, h1]
      · by_cases h2 : r.status = "complete"
        · cases sa <;> simp [handleSignUp, h1, h2]
        · simp [handleSignUp, h1, h2]
    | error e => simp [handleSignUp]
  · cases ce with
    | some e => simp [onSignUp]
    | none => cases pe2 <;> simp [onSignUp]
  · cases oc2 with
    | ok st => by_cases h : st = "complete" <;> simp [onResetPassword, h]
    | error e => simp [onResetPassword]

/-- Every effect of the `handleSignIn` catch branch is a form-field
error (used by the try/catch-discipline theorem). -/
theorem continueSignInCatchEffects_safe (e : ClerkError) :
    (continueSignInCatchEffects e).all UiEffect.isErrorAlertOrLoading = true := by
  unfold continueSignInCatchEffects
  cases he : e.errors with
  | none => rfl
  | some errs =>
    simp only [List.all_eq_true]
    intro ef hef
    simp only [List.mem_map] at hef
    obtain ⟨err, hmem, hef⟩ := hef
    subst hef
    by_cases hp : err.paramName = some "password" <;>
      simp [hp, UiEffect.isErrorAlertOrLoading]

/-- C7: in each cited submission handler every SDK method is invoked at
most once per invocation, no exception escapes the try/catch, a failing
run produces only form-field errors, alerts and `isLoading`
bookkeeping, and `isLoading` ends false on every execution path
starting from false. -/
theorem submissionHandlers_tryCatch_discipline :
    ∀ (loaded : Bool) (oc : Except ClerkError AttemptResult)
      (sa : Option ClerkError) (oc2 : Except ClerkError String),
      (((handleSignIn loaded oc sa).calls.map SdkCall.methodName).Nodup ∧
        (handleSignIn loaded oc sa).thrown = none ∧
        finalLoading false (handleSignIn loaded oc sa).effects = false ∧
        (∀ e, oc = .error e →
          (handleSignIn loaded oc sa).effects.all
            UiEffect.isErrorAlertOrLoading = true)) ∧
      (((handleVerification loaded oc sa).calls.map SdkCall.methodName).Nodup ∧
        (handleVerification loaded oc sa).thrown = none ∧
        finalLoading false (handleVerification loaded oc sa).effects = false ∧
        (∀ e, oc = .error e →
          (handleVerification loaded oc sa).effects.all
            UiEffect.isErrorAlertOrLoading = true)) ∧
      (((onSendResetEmail loaded oc2).calls.map SdkCall.methodName).Nodup ∧
        (onSendResetEmail loaded oc2).thrown = none ∧
        finalLoading false (onSendResetEmail loaded oc2).effects = false ∧
        (∀ e, oc2 = .error e →
          (onSendResetEmail loaded oc2).effects.all
            UiEffect.isErrorAlertOrLoading = true)) := by
  intro loaded oc sa oc2
  cases loaded with
  | false =>
    refine ⟨⟨?_, rfl, rfl, ?_⟩, ⟨?_, rfl, rfl, ?_⟩, ⟨?_, rfl, rfl, ?_⟩⟩ <;>
      simp [handleSignIn, handleVerification, onSendResetEmail, finalLoading]
  | true =>
    refine ⟨⟨?_, ?_, ?_, ?_⟩, ⟨?_, ?_, ?_, ?_⟩, ⟨?_, ?_, ?_, ?_⟩⟩
    all_goals
      cases oc with
      | ok r =>
        by_cases hst : r.status = "complete" <;>
          cases sa <;>
            cases oc2 with
            | ok st2 =>
              by_cases h2 : st2 = "needs_first_factor" <;>
                simp [handleSignIn, handleVerification, onSendResetEmail,
                  finalLoading, hst, h2,
                  SdkCall.methodName, UiEffect.isErrorAlertOrLoading,
                  List.foldl_append, any_map_comp, continueSignInCatchEffects_safe]
            | error e2 =>
              cases he2 : e2.errors <;>
                simp [handleSignIn, handleVerification, onSendResetEmail,
                  finalLoading, hst, he2,
                  SdkCall.methodName, UiEffect.isErrorAlertOrLoading,
                  List.foldl_append, any_map_comp, continueSignInCatchEffects_safe]
      | error e =>
        cases he : e.errors <;>
          cases oc2 with
          | ok st2 =>
            by_cases h2 : st2 = "needs_first_factor" <;>
              simp [handleSignIn, handleVerification, onSendResetEmail,
                finalLoading, he, h2,
                SdkCall.methodName, UiEffect.isErrorAlertOrLoading,
                List.foldl_append, any_map_comp, continueSignInCatchEffects_safe]
          | error e2 =>
            cases he2 : e2.errors <;>
              simp [handleSignIn, handleVerification, onSendResetEmail,
                finalLoading, he, he2,
                SdkCall.methodName, UiEffect.isErrorAlertOrLoading,
                List.foldl_append, any_map_comp, continueSignInCatchEffects_safe]

/-- C8 counterexample: when the reset-email attempt resolves with a
status other than needs_first_factor (here, complete), the
`onSendResetEmail` handler leaves the step unchanged but sets no form
error at all, contradicting the claim that in all other non-throwing
cases the step is unchanged and a form error is set. -/
theorem onSendResetEmail_otherStatus_setsNoError :
    (onSendResetEmail true (.ok "complete")).step = .email ∧
    ((onSendResetEmail true (.ok "complete")).effects.all
      fun ef => !ef.isFieldError) = true := by
  exact ⟨rfl, rfl⟩

/-- C8 amended: the forgot-password screen advances from the email step
to the reset step exactly when the reset-email attempt resolves with
status needs_first_factor, and the user is routed back to the sign-in
screen exactly when the reset attempt resolves with status complete; in
all other non-throwing cases the step is unchanged, the reset handler
additionally sets the root form error, while the email-step handler
sets no form error. -/
theorem forgotPassword_stepTransitions :
    ∀ (loaded : Bool) (oc : Except ClerkError String),
      ((onSendResetEmail loaded oc).step = .reset ↔
        (loaded = true ∧ oc = .ok "needs_first_factor")) ∧
      ((UiEffect.navigate "/(auth)/sign-in") ∈
          (onResetPassword loaded oc).effects ↔
        (loaded = true ∧ oc = .ok "complete")) ∧
      (onResetPassword loaded oc).step = .reset ∧
      (∀ st, oc = .ok st → st ≠ "complete" → loaded = true →
        (onResetPassword loaded oc).effects =
          [.setLoading true,
            .setFieldError "root" (some "Password reset could not be completed"),
            .setLoading false]) ∧
      (∀ st, oc = .ok st → st ≠ "needs_first_factor" →
        (onSendResetEmail loaded oc).step = .email ∧
        ((onSendResetEmail loaded oc).effects.all
          fun ef => !ef.isFieldError) = true) := by
  intro loaded oc
  cases loaded with
  | false =>
    refine ⟨?_, ?_, rfl, ?_, ?_⟩ <;>
      simp [onSendResetEmail, onResetPassword]
  | true =>
    cases oc with
    | ok st =>
      by_cases h1 : st = "needs_first_factor" <;>
        by_cases h2 : st = "complete" <;>
          refine ⟨?_, ?_, ?_, ?_, ?_⟩ <;>
            simp [onSendResetEmail, onResetPassword, h1, h2,
              UiEffect.isFieldError]
    | error e =>
      cases he : e.errors with
      | none =>
        refine ⟨?_, ?_, ?_, ?_, ?_⟩ <;>
          simp [onSendResetEmail, onResetPassword, he]
      | some errs =>
        refine ⟨?_, ?_, ?_, ?_, ?_⟩ <;>
          simp [onSendResetEmail, onResetPassword, he]
